import Mathlib

/-!
Formal verification of the hierarchical transform / scene-graph core of the
Computer-Graphics-Project repository (fencing.js, the volleyball-spike file,
the barbell file `part_000`, and the running-gait file `part_001`).

The JavaScript source is shallowly embedded: the mutable `MatrixStack` class
becomes a record threaded through pure state-transforming functions, matrices
are 4-by-4 real matrices, the fallible `pop` returns `Except`, and the drawing
routines become `MatrixStack -> Except String MatrixStack` compositions.
Angles and coordinates are modelled over the real numbers.
-/

noncomputable section

open Real

/-- A 3-component vector, as used by gl-matrix `vec3` values `[x, y, z]`. -/
abbrev Vec3 : Type := ℝ × ℝ × ℝ

/-- A 4-by-4 real matrix, mirroring a gl-matrix `mat4` (the JS array is
column-major; entry `m[12], m[13], m[14]` is column 3, rows 0..2). -/
abbrev Mat4 : Type := Matrix (Fin 4) (Fin 4) ℝ

/-- The identity `mat4.create()`. -/
def mat4create : Mat4 := (1 : Matrix (Fin 4) (Fin 4) ℝ)

/-- Elementary translation matrix, as post-multiplied by `mat4.translate`. -/
def translationMat (v : Vec3) : Mat4 :=
  Matrix.of ![![1, 0, 0, v.1], ![0, 1, 0, v.2.1], ![0, 0, 1, v.2.2], ![0, 0, 0, 1]]

/-- Elementary scale matrix, as post-multiplied by `mat4.scale`. -/
def scaleMat (v : Vec3) : Mat4 :=
  Matrix.of ![![v.1, 0, 0, 0], ![0, v.2.1, 0, 0], ![0, 0, v.2.2, 0], ![0, 0, 0, 1]]

/-- Euclidean length of a `vec3` (`glMatrix.vec3.length`). -/
def vec3length (v : Vec3) : ℝ :=
  Real.sqrt (v.1 ^ 2 + v.2.1 ^ 2 + v.2.2 ^ 2)

/-- Componentwise difference (`glMatrix.vec3.subtract`). -/
def vec3sub (a b : Vec3) : Vec3 := (a.1 - b.1, a.2.1 - b.2.1, a.2.2 - b.2.2)

/-- Componentwise sum (`glMatrix.vec3.add`). -/
def vec3add (a b : Vec3) : Vec3 := (a.1 + b.1, a.2.1 + b.2.1, a.2.2 + b.2.2)

/-- Scalar multiple (`glMatrix.vec3.scale`). -/
def vec3smul (c : ℝ) (v : Vec3) : Vec3 := (c * v.1, c * v.2.1, c * v.2.2)

/-- Dot product (`glMatrix.vec3.dot`). -/
def vec3dot (a b : Vec3) : ℝ := a.1 * b.1 + a.2.1 * b.2.1 + a.2.2 * b.2.2

/-- Cross product (`glMatrix.vec3.cross`). -/
def vec3cross (a b : Vec3) : Vec3 :=
  (a.2.1 * b.2.2 - a.2.2 * b.2.1,
   a.2.2 * b.1 - a.1 * b.2.2,
   a.1 * b.2.1 - a.2.1 * b.1)

/-- Rodrigues rotation matrix built by gl-matrix `mat4.rotate(out, a, rad, axis)`:
the axis is normalised internally, `s = sin rad`, `c = cos rad`, `t = 1 - c`,
and the resulting 3-by-3 block is embedded in a 4-by-4 matrix.  (gl-matrix's
early return for a near-zero axis is never reached in this code base: every
call site passes a unit axis or an explicitly normalised one.) -/
def rotationMat (rad : ℝ) (axis : Vec3) : Mat4 :=
  let len := vec3length axis
  let x := axis.1 / len
  let y := axis.2.1 / len
  let z := axis.2.2 / len
  let s := Real.sin rad
  let c := Real.cos rad
  let t := 1 - c
  Matrix.of
    ![![x * x * t + c, x * y * t - z * s, x * z * t + y * s, 0],
      ![y * x * t + z * s, y * y * t + c, y * z * t - x * s, 0],
      ![z * x * t - y * s, z * y * t + x * s, z * z * t + c, 0],
      ![0, 0, 0, 1]]

/-- The `MatrixStack` class shared verbatim by fencing.js, the spike file and
`part_000`/`part_001`: a saved-matrix history plus one current matrix. -/
structure MatrixStack where
  stack : List Mat4
  current : Mat4

/-- `new MatrixStack()`: empty history, identity current matrix. -/
def MatrixStack.init : MatrixStack := ⟨[], mat4create⟩

/-- `push()` saves a copy (`mat4.clone`) of the current matrix onto the history. -/
def MatrixStack.push (s : MatrixStack) : MatrixStack :=
  { s with stack := s.current :: s.stack }

/-- `pop()` restores the most recently saved matrix, or throws
`"Stack underflow"` when the history is empty. -/
def MatrixStack.pop (s : MatrixStack) : Except String MatrixStack :=
  match s.stack with
  | [] => .error "Stack underflow"
  | m :: rest => .ok ⟨rest, m⟩

/-- `loadIdentity()` resets the current matrix, leaving the history alone. -/
def MatrixStack.loadIdentity (s : MatrixStack) : MatrixStack :=
  { s with current := mat4create }

/-- `translate(v)` post-multiplies the current matrix (`mat4.translate`). -/
def MatrixStack.translate (s : MatrixStack) (v : Vec3) : MatrixStack :=
  { s with current := s.current * translationMat v }

/-- `rotate(rad, axis)` post-multiplies the current matrix (`mat4.rotate`). -/
def MatrixStack.rotate (s : MatrixStack) (rad : ℝ) (axis : Vec3) : MatrixStack :=
  { s with current := s.current * rotationMat rad axis }

/-- `scale(v)` post-multiplies the current matrix (`mat4.scale`). -/
def MatrixStack.scale (s : MatrixStack) (v : Vec3) : MatrixStack :=
  { s with current := s.current * scaleMat v }

/-- `getCurrentMatrix()` returns the current matrix. -/
def MatrixStack.getCurrentMatrix (s : MatrixStack) : Mat4 := s.current

/-- The current-matrix mutations available between a `push` and its matching
`pop`: `translate`, `rotate`, `scale`, `loadIdentity`. -/
inductive StackOp where
  | translate (v : Vec3)
  | rotate (rad : ℝ) (axis : Vec3)
  | scale (v : Vec3)
  | loadIdentity

/-- Apply one current-matrix mutation to the stack. -/
def applyOp (op : StackOp) (s : MatrixStack) : MatrixStack :=
  match op with
  | .translate v => s.translate v
  | .rotate rad axis => s.rotate rad axis
  | .scale v => s.scale v
  | .loadIdentity => s.loadIdentity

/-- Apply a sequence of current-matrix mutations, left to right. -/
def applyOps (ops : List StackOp) (s : MatrixStack) : MatrixStack :=
  ops.foldl (fun s op => applyOp op s) s

theorem applyOp_stack (op : StackOp) (s : MatrixStack) :
    (applyOp op s).stack = s.stack := by
  cases op <;> rfl

theorem applyOps_stack (ops : List StackOp) (s : MatrixStack) :
    (applyOps ops s).stack = s.stack := by
  induction ops generalizing s with
  | nil => rfl
  | cons op rest ih =>
      simpa [applyOps, applyOp_stack] using ih (applyOp op s)

/-- C2: push/pop round-trip with copy semantics.  `push()` leaves the current
matrix unchanged, and after any sequence of `translate`/`rotate`/`scale`/
`loadIdentity` calls between a `push()` and its matching `pop()`, the current
matrix after the `pop()` equals the current matrix just before the `push()`;
the saved copy is never retroactively altered by mutating the current matrix. -/
theorem push_pop_roundtrip (s : MatrixStack) (ops : List StackOp) :
    s.push.current = s.current ∧
    (applyOps ops s.push).pop = Except.ok { stack := s.stack, current := s.current } := by
  refine ⟨rfl, ?_⟩
  have hstk : (applyOps ops s.push).stack = s.current :: s.stack :=
    applyOps_stack ops s.push
  unfold MatrixStack.pop
  rw [hstk]

/-- C3: `pop()` replaces the current matrix with the most recently saved copy,
removing it from the history, and raises the `"Stack underflow"` error exactly
when the history is empty. -/
theorem pop_spec (s : MatrixStack) :
    (s.pop = Except.error "Stack underflow" ↔ s.stack = []) ∧
    (∀ m rest, s.stack = m :: rest →
      s.pop = Except.ok { stack := rest, current := m }) := by
  constructor
  · constructor
    · intro h
      cases hs : s.stack with
      | nil => rfl
      | cons m rest =>
          unfold MatrixStack.pop at h
          rw [hs] at h
          exact absurd h (by simp)
    · intro h
      unfold MatrixStack.pop
      rw [h]
  · intro m rest h
    unfold MatrixStack.pop
    rw [h]

/-- Witness for C3 at concrete stacks: the empty-history stack underflows, and
a one-element history pops to that element. -/
theorem pop_spec_witness :
    (MatrixStack.pop ⟨[], mat4create⟩ = Except.error "Stack underflow") ∧
    (MatrixStack.pop ⟨[translationMat (1, 2, 3)], mat4create⟩ =
      Except.ok { stack := [], current := translationMat (1, 2, 3) }) := by
  constructor
  · exact (pop_spec ⟨[], mat4create⟩).1.mpr rfl
  · exact (pop_spec ⟨[translationMat (1, 2, 3)], mat4create⟩).2
      (translationMat (1, 2, 3)) [] rfl

/-- Which arm/leg is being drawn (`side === "left"` / `"right"`). -/
inductive Side where
  | left
  | right
deriving DecidableEq

/-- `drawGeometry` (and the `drawVAO`-based helpers `drawSphere`,
`drawCylinder`, `drawBar`, `drawPlate`) bind a VAO and issue a GL draw call;
they read the current matrix but do not modify the stack. -/
def drawGeometry (s : MatrixStack) : MatrixStack := s

namespace Fencing

/-- `HAND_RADIUS` from fencing.js. -/
def HAND_RADIUS : ℝ := 0.12

/-- The per-frame joint-angle record passed to `drawCharacter`
(fencing.js `animations`). -/
structure Animations where
  leftShoulderAngle : ℝ
  rightShoulderAngle : ℝ
  leftElbowAngle : ℝ
  rightElbowAngle : ℝ
  leftHipAngle : ℝ
  rightHipAngle : ℝ
  leftKneeAngle : ℝ
  rightKneeAngle : ℝ
  headTilt : ℝ

/-- fencing.js `drawBody`. -/
def drawBody (s : MatrixStack) : Except String MatrixStack := do
  let s := s.push
  let s := s.scale (0.5, 1.5, 0.25)
  let s := drawGeometry s
  s.pop

/-- fencing.js `drawHead`. -/
def drawHead (headTilt : ℝ) (s : MatrixStack) : Except String MatrixStack := do
  let s := s.push
  let s := s.translate (0, 1.1, 0)
  let s := s.rotate headTilt (1, 0, 0)
  let s := drawGeometry s
  s.pop

/-- fencing.js `drawArm`, including the sword block on the right arm. -/
def drawArm (side : Side) (shoulderAngle elbowAngle : ℝ) (s : MatrixStack) :
    Except String MatrixStack := do
  let sign : ℝ := if side = Side.left then -1 else 1
  let shoulderYOffset : ℝ := 0.5
  let shoulderXOffset : ℝ := 0.3
  let shoulderZOffset : ℝ := 0.3
  let upperArmLength : ℝ := 0.6
  let lowerArmLength : ℝ := 0.6
  let jointSize : ℝ := 0.1
  let s := s.push
  let s := s.translate (sign * shoulderXOffset, shoulderYOffset, sign * shoulderZOffset)
  let s := s.rotate shoulderAngle (0, 0, 1)
  let s := s.push
  let s := s.scale (0.2, 0.2, 0.2)
  let s := drawGeometry s
  let s ← s.pop
  let s := s.push
  let s := s.translate (0, -(jointSize + upperArmLength / 2), 0)
  let s := s.scale (0.15, upperArmLength, 0.15)
  let s := drawGeometry s
  let s ← s.pop
  let s := s.translate (0, -(jointSize + upperArmLength + jointSize), 0)
  let s := s.rotate elbowAngle (0, 0, 1)
  let s := s.push
  let s := s.scale (0.18, 0.18, 0.18)
  let s := drawGeometry s
  let s ← s.pop
  let s := s.push
  let s := s.translate (0, -(jointSize + lowerArmLength / 2), 0)
  let s ← (if side = Side.right then do
      let s := s.push
      let s := s.translate (0, -(lowerArmLength / 2 + jointSize), 0)
      let s := s.push
      let s := s.scale (HAND_RADIUS, HAND_RADIUS, HAND_RADIUS)
      let s := drawGeometry s
      let s ← s.pop
      let s := s.translate (0, -(jointSize + lowerArmLength), 0)
      let s := drawGeometry s
      s.pop
    else pure s)
  let s := s.scale (0.12, lowerArmLength, 0.12)
  let s := drawGeometry s
  let s ← s.pop
  s.pop

/-- fencing.js `drawLeg`, including the ankle joint sphere. -/
def drawLeg (side : Side) (hipAngle kneeAngle : ℝ) (s : MatrixStack) :
    Except String MatrixStack := do
  let sign : ℝ := if side = Side.left then -1 else 1
  let hipYOffset : ℝ := -0.75
  let hipXOffset : ℝ := 0.2
  let hipZOffset : ℝ := 0.25
  let upperLegLength : ℝ := 0.8
  let lowerLegLength : ℝ := 0.7
  let jointSize : ℝ := 0.125
  let s := s.push
  let s := s.translate (sign * hipXOffset, hipYOffset, sign * hipZOffset)
  let s := s.rotate hipAngle (0, 0, 1)
  let s := s.push
  let s := s.scale (0.25, 0.25, 0.25)
  let s := drawGeometry s
  let s ← s.pop
  let s := s.push
  let s := s.translate (0, -(jointSize + upperLegLength / 2), 0)
  let s := s.scale (0.18, upperLegLength, 0.18)
  let s := drawGeometry s
  let s ← s.pop
  let s := s.translate (0, -(jointSize + upperLegLength + jointSize), 0)
  let s := s.rotate kneeAngle (0, 0, 1)
  let s := s.push
  let s := s.scale (0.2, 0.2, 0.2)
  let s := drawGeometry s
  let s ← s.pop
  let s := s.push
  let s := s.translate (0, -(jointSize + lowerLegLength / 2), 0)
  let s := s.scale (0.15, lowerLegLength, 0.15)
  let s := drawGeometry s
  let s ← s.pop
  let s := s.translate (0, -(jointSize + lowerLegLength), 0)
  let s := s.push
  let s := s.scale (0.15, 0.15, 0.15)
  let s := drawGeometry s
  let s ← s.pop
  s.pop

/-- fencing.js `drawCharacter`: torso, head, both arms, both legs, inside one
outer push/pop. -/
def drawCharacter (anims : Animations) (s : MatrixStack) :
    Except String MatrixStack := do
  let s := s.push
  let s ← drawBody s
  let s ← drawHead anims.headTilt s
  let s ← drawArm .left anims.leftShoulderAngle anims.leftElbowAngle s
  let s ← drawArm .right anims.rightShoulderAngle anims.rightElbowAngle s
  let s ← drawLeg .left anims.leftHipAngle anims.leftKneeAngle s
  let s ← drawLeg .right anims.rightHipAngle anims.rightKneeAngle s
  s.pop

end Fencing

namespace Barbell

/-- The pose record consumed by `part_000`'s `character`: the interpolated
joint angles plus the lateral offsets `RIGHT_ARM_SX` / `RIGHT_HIP_SX`. -/
structure LiftPose where
  BODY_LEAN_X : ℝ
  BODY_LEAN_Y : ℝ
  BODY_LEAN_Z : ℝ
  HEAD_TILT : ℝ
  LEFT_SHOULDER : ℝ
  RIGHT_SHOULDER : ℝ
  LEFT_ELBOW : ℝ
  RIGHT_ELBOW : ℝ
  LEFT_HIP : ℝ
  RIGHT_HIP : ℝ
  LEFT_KNEE : ℝ
  RIGHT_KNEE : ℝ
  RIGHT_ARM_SX : ℝ
  RIGHT_HIP_SX : ℝ

/-- `part_000` `body()`. -/
def body (s : MatrixStack) : Except String MatrixStack := do
  let s := s.push
  let s := s.scale (0.5, 1.5, 0.25)
  let s := drawGeometry s
  s.pop

/-- `part_000` `head(tilt)`. -/
def head (tilt : ℝ) (s : MatrixStack) : Except String MatrixStack := do
  let s := s.push
  let s := s.translate (0, 1.1, 0)
  let s := s.rotate tilt (1, 0, 0)
  let s := drawGeometry s
  s.pop

/-- `part_000` `arm(side, shoulder, elbow, customSX)`: draws the arm and
returns a clone of the hand sphere's world matrix, captured inside the
deepest pushed scope. -/
def arm (side : Side) (shoulder elbow customSX : ℝ) (s : MatrixStack) :
    Except String (MatrixStack × Mat4) := do
  let sg : ℝ := if side = Side.left then -1 else 1
  let sY : ℝ := 0.5
  let sX : ℝ := customSX
  let sZ : ℝ := 0.5
  let upper : ℝ := 0.6
  let lower : ℝ := 0.6
  let j : ℝ := 0.1
  let s := s.push
  let s := s.translate (sX, sY, sg * sZ)
  let s := s.rotate shoulder (0, 0, 1)
  let s := s.push
  let s := s.scale (0.2, 0.2, 0.2)
  let s := drawGeometry s
  let s ← s.pop
  let s := s.push
  let s := s.translate (0, -(j + upper / 2), 0)
  let s := s.scale (0.15, upper, 0.15)
  let s := drawGeometry s
  let s ← s.pop
  let s := s.translate (0, -(j + upper + j), 0)
  let s := s.rotate elbow (0, 0, 1)
  let s := s.push
  let s := s.scale (0.18, 0.18, 0.18)
  let s := drawGeometry s
  let s ← s.pop
  let s := s.push
  let s := s.translate (0, -(j + lower / 2), 0)
  let s := s.scale (0.12, lower, 0.12)
  let s := drawGeometry s
  let s ← s.pop
  let s := s.push
  let s := s.translate (0, -(j + lower + j * 0.8), 0)
  let s := s.scale (0.15, 0.15, 0.15)
  let s := drawGeometry s
  let handModel := s.getCurrentMatrix
  let s ← s.pop
  let s ← s.pop
  return (s, handModel)

/-- `part_000` `leg(side, hip, knee, customSX)`. -/
def leg (side : Side) (hip knee customSX : ℝ) (s : MatrixStack) :
    Except String MatrixStack := do
  let sg : ℝ := if side = Side.left then -1 else 1
  let hY : ℝ := -0.75
  let hX : ℝ := customSX
  let hZ : ℝ := 0.25
  let upper : ℝ := 0.8
  let lower : ℝ := 0.7
  let j : ℝ := 0.125
  let s := s.push
  let s := s.translate (hX, hY, sg * hZ)
  let s := s.rotate hip (0, 0, 1)
  let s := s.push
  let s := s.scale (0.25, 0.25, 0.25)
  let s := drawGeometry s
  let s ← s.pop
  let s := s.push
  let s := s.translate (0, -(j + upper / 2), 0)
  let s := s.scale (0.18, upper, 0.18)
  let s := drawGeometry s
  let s ← s.pop
  let s := s.translate (0, -(j + upper + j), 0)
  let s := s.rotate knee (0, 0, 1)
  let s := s.push
  let s := s.scale (0.2, 0.2, 0.2)
  let s := drawGeometry s
  let s ← s.pop
  let s := s.push
  let s := s.translate (0, -(j + lower / 2), 0)
  let s := s.scale (0.15, lower, 0.15)
  let s := drawGeometry s
  let s ← s.pop
  s.pop

/-- `part_000` `character(p)`: draws the whole figure and returns the two
captured hand matrices. -/
def character (p : LiftPose) (s : MatrixStack) :
    Except String (MatrixStack × Mat4 × Mat4) := do
  let s := s.push
  let s ← body s
  let s ← head p.HEAD_TILT s
  let (s, leftHandM) ← arm .left p.LEFT_SHOULDER p.LEFT_ELBOW p.RIGHT_ARM_SX s
  let (s, rightHandM) ← arm .right p.RIGHT_SHOULDER p.RIGHT_ELBOW p.RIGHT_ARM_SX s
  let s ← leg .left p.LEFT_HIP p.LEFT_KNEE (-p.RIGHT_HIP_SX) s
  let s ← leg .right p.RIGHT_HIP p.RIGHT_KNEE p.RIGHT_HIP_SX s
  let s ← s.pop
  return (s, leftHandM, rightHandM)

/-- The prop geometry's canonical long axis `up = [0, 1, 0]`. -/
def barbellUp : Vec3 := (0, 1, 0)

/-- The pure quantities `drawBarbell` derives from the two hand matrices:
hand positions (translation columns `L[12..14]`, `R[12..14]`), bar length,
normalised direction, midpoint, rotation axis `cross(up, dir)` and its
length. -/
structure BarbellCalc where
  pL : Vec3
  pR : Vec3
  len : ℝ
  dir : Vec3
  mid : Vec3
  axis : Vec3
  axisLen : ℝ

/-- Steps ①–④ of `part_000`'s `drawBarbell`. -/
def barbellCalc (L R : Mat4) : BarbellCalc :=
  let pL : Vec3 := (L 0 3, L 1 3, L 2 3)
  let pR : Vec3 := (R 0 3, R 1 3, R 2 3)
  let d := vec3sub pR pL
  let len := vec3length d
  let dir := vec3smul (1 / len) d
  let mid := vec3smul 0.5 (vec3add pL pR)
  let axis := vec3cross barbellUp dir
  ⟨pL, pR, len, dir, mid, axis, vec3length axis⟩

/-- The rotation angle `acos(dot(up, dir))`, with the dot product clamped to
the arccosine domain `[-1, 1]` as in the source. -/
def barbellAngle (c : BarbellCalc) : ℝ :=
  Real.arccos (min (max (vec3dot barbellUp c.dir) (-1)) 1)

/-- The orientation branch of `drawBarbell`: rotate by the clamped-arccos
angle about the normalised axis when `axisLen > 1e-5`; otherwise, when
`dot(up, dir) < 0` (antiparallel hands), substitute a fixed 180-degree
rotation about `+X`; otherwise leave the matrix alone. -/
def orientStep (c : BarbellCalc) (axisN : Vec3) (s : MatrixStack) : MatrixStack :=
  if c.axisLen > 1e-5 then s.rotate (barbellAngle c) axisN
  else if vec3dot barbellUp c.dir < 0 then s.rotate Real.pi (1, 0, 0)
  else s

/-- One iteration of the `[1, -1].forEach` plate block of `drawBarbell`.
`axisN` is the axis after the bar block's in-place
`vec3.scale(axis, axis, 1/axisLen)` normalisation. -/
def plateStep (c : BarbellCalc) (axisN : Vec3) (plateOffset sign : ℝ)
    (s : MatrixStack) : Except String MatrixStack := do
  let s := s.push
  let s := s.translate c.mid
  let s := orientStep c axisN s
  let s := s.translate (0, sign * plateOffset, 0)
  let s := drawGeometry s
  s.pop

/-- `part_000` `drawBarbell(L, R)`: bar between the two hands, then the two
end plates.  The branch on `axisLen > 1e-5` (near-parallel guard) falls back
to a 180-degree rotation about `+X` exactly when `dot(up, dir) < 0`. -/
def drawBarbell (L R : Mat4) (s : MatrixStack) : Except String MatrixStack := do
  let c := barbellCalc L R
  let axisN := if c.axisLen > 1e-5 then vec3smul (1 / c.axisLen) c.axis else c.axis
  let s := s.push
  let s := s.translate c.mid
  let s := orientStep c axisN s
  let s := s.scale (1, c.len, 1)
  let s := drawGeometry s
  let s ← s.pop
  let plateOffset := c.len - 0.05
  let s ← plateStep c axisN plateOffset 1 s
  plateStep c axisN plateOffset (-1) s

end Barbell

/-- C1: every part-drawing routine is stack-balanced.  For every starting
`MatrixStack` state and every pose/animation argument, fencing.js
`drawCharacter`, `part_000`'s `character` and `part_000`'s `drawBarbell`
return the stack exactly as they found it: same saved history (hence same
depth) and same current matrix. -/
theorem drawRoutines_stack_balanced (s : MatrixStack) (anims : Fencing.Animations)
    (p : Barbell.LiftPose) (L R : Mat4) :
    Fencing.drawCharacter anims s = Except.ok s ∧
    (Barbell.character p s).map Prod.fst = Except.ok s ∧
    Barbell.drawBarbell L R s = Except.ok s := by
  refine ⟨rfl, rfl, ?_⟩
  unfold Barbell.drawBarbell Barbell.plateStep Barbell.orientStep
  dsimp only
  split_ifs <;> rfl

/-- `lerp(a, b, t) = a + (b - a) * t`, as defined in every file of the repo. -/
def lerp (a b t : ℝ) : ℝ := a + (b - a) * t

theorem lerp_zero (a b : ℝ) : lerp a b 0 = a := by unfold lerp; ring

theorem lerp_one (a b : ℝ) : lerp a b 1 = b := by unfold lerp; ring

/-- `deg(a)` converts degrees to radians (`a * Math.PI / 180`). -/
def deg (a : ℝ) : ℝ := a * Real.pi / 180

theorem deg_lt_deg {a b : ℝ} (h : a < b) : deg a < deg b := by
  unfold deg
  have hb := mul_pos (sub_pos.mpr h) Real.pi_pos
  nlinarith

namespace Spike

/-- The 12 named fields of the spike file's authored poses. -/
structure SpikePose where
  BODY_LEAN_X : ℝ
  BODY_LEAN_Y : ℝ
  BODY_LEAN_Z : ℝ
  HEAD_TILT : ℝ
  LEFT_SHOULDER : ℝ
  RIGHT_SHOULDER : ℝ
  LEFT_ELBOW : ℝ
  RIGHT_ELBOW : ℝ
  LEFT_HIP : ℝ
  RIGHT_HIP : ℝ
  LEFT_KNEE : ℝ
  RIGHT_KNEE : ℝ

/-- The pose object `interpolatePose` returns: the 12 interpolated fields
(with `RIGHT_ELBOW` overwritten by the gate) plus the gated `RIGHT_ARM_SX`. -/
structure SpikeRenderPose where
  BODY_LEAN_X : ℝ
  BODY_LEAN_Y : ℝ
  BODY_LEAN_Z : ℝ
  HEAD_TILT : ℝ
  LEFT_SHOULDER : ℝ
  RIGHT_SHOULDER : ℝ
  LEFT_ELBOW : ℝ
  RIGHT_ELBOW : ℝ
  LEFT_HIP : ℝ
  RIGHT_HIP : ℝ
  LEFT_KNEE : ℝ
  RIGHT_KNEE : ℝ
  RIGHT_ARM_SX : ℝ

/-- Repackage an interpolated `SpikePose` with the gate-controlled
`RIGHT_ELBOW` and `RIGHT_ARM_SX` values. -/
def SpikeRenderPose.ofPose (p : SpikePose) (elbow sx : ℝ) : SpikeRenderPose :=
  ⟨p.BODY_LEAN_X, p.BODY_LEAN_Y, p.BODY_LEAN_Z, p.HEAD_TILT,
   p.LEFT_SHOULDER, p.RIGHT_SHOULDER, p.LEFT_ELBOW, elbow,
   p.LEFT_HIP, p.RIGHT_HIP, p.LEFT_KNEE, p.RIGHT_KNEE, sx⟩

/-- The spike file's `startPose` constant. -/
def startPose : SpikePose :=
  ⟨deg 0, deg 0, deg 30, deg (-15),
   deg 100, deg (-80), deg 15, deg (-125),
   deg (-60), deg (-30), deg (-70), deg (-30)⟩

/-- The spike file's `endPose` constant. -/
def endPose : SpikePose :=
  ⟨deg 0, deg 0, deg (-20), deg (-15),
   deg 0, deg (-310), deg 70, deg 0,
   deg 60, deg 60, deg (-10), deg (-70)⟩

/-- `SX_START = -0.3`. -/
def SX_START : ℝ := -0.3

/-- `SX_END = 0.3`. -/
def SX_END : ℝ := 0.3

/-- `SHOULDER_LIMIT = deg(-160)`. -/
def SHOULDER_LIMIT : ℝ := deg (-160)

/-- The `for (const k in startPose)` loop of `interpolatePose`: componentwise
linear interpolation over the 12 named fields. -/
def lerpPose (a b : SpikePose) (t : ℝ) : SpikePose :=
  ⟨lerp a.BODY_LEAN_X b.BODY_LEAN_X t, lerp a.BODY_LEAN_Y b.BODY_LEAN_Y t,
   lerp a.BODY_LEAN_Z b.BODY_LEAN_Z t, lerp a.HEAD_TILT b.HEAD_TILT t,
   lerp a.LEFT_SHOULDER b.LEFT_SHOULDER t, lerp a.RIGHT_SHOULDER b.RIGHT_SHOULDER t,
   lerp a.LEFT_ELBOW b.LEFT_ELBOW t, lerp a.RIGHT_ELBOW b.RIGHT_ELBOW t,
   lerp a.LEFT_HIP b.LEFT_HIP t, lerp a.RIGHT_HIP b.RIGHT_HIP t,
   lerp a.LEFT_KNEE b.LEFT_KNEE t, lerp a.RIGHT_KNEE b.RIGHT_KNEE t⟩

theorem lerpPose_zero (a b : SpikePose) : lerpPose a b 0 = a := by
  unfold lerpPose
  simp only [lerp_zero]

theorem lerpPose_one (a b : SpikePose) : lerpPose a b 1 = b := by
  unfold lerpPose
  simp only [lerp_one]

/-- The spike file's `interpolatePose(t)`: componentwise lerp, then the
shoulder-gated override of `RIGHT_ELBOW` and `RIGHT_ARM_SX`. -/
def interpolatePose (t : ℝ) : SpikeRenderPose :=
  let p := lerpPose startPose endPose t
  let sh := p.RIGHT_SHOULDER
  if sh > SHOULDER_LIMIT then
    let k := (sh - startPose.RIGHT_SHOULDER) / (SHOULDER_LIMIT - startPose.RIGHT_SHOULDER)
    SpikeRenderPose.ofPose p (lerp startPose.RIGHT_ELBOW 0 k) (lerp SX_START SX_END k)
  else
    SpikeRenderPose.ofPose p 0 SX_END

end Spike

/-- C4: pose interpolation boundary.  `interpolatePose 0` reproduces the start
pose on every named field, with the gated `RIGHT_ELBOW` at
`startPose.RIGHT_ELBOW` and `RIGHT_ARM_SX` at `SX_START`; `interpolatePose 1`
reproduces the end pose, with `RIGHT_ELBOW = endPose.RIGHT_ELBOW` and
`RIGHT_ARM_SX = SX_END`. -/
theorem interpolatePose_boundary :
    Spike.interpolatePose 0 =
      Spike.SpikeRenderPose.ofPose Spike.startPose Spike.startPose.RIGHT_ELBOW Spike.SX_START ∧
    Spike.interpolatePose 1 =
      Spike.SpikeRenderPose.ofPose Spike.endPose Spike.endPose.RIGHT_ELBOW Spike.SX_END := by
  constructor
  · unfold Spike.interpolatePose
    rw [Spike.lerpPose_zero]
    rw [if_pos (show Spike.startPose.RIGHT_SHOULDER > Spike.SHOULDER_LIMIT from
      deg_lt_deg (by norm_num))]
    rw [sub_self, zero_div]
    dsimp only
    rw [lerp_zero, lerp_zero]
  · unfold Spike.interpolatePose
    rw [Spike.lerpPose_one]
    rw [if_neg (show ¬ Spike.endPose.RIGHT_SHOULDER > Spike.SHOULDER_LIMIT from
      not_lt.mpr (le_of_lt (deg_lt_deg (by norm_num))))]
    have h0 : Spike.endPose.RIGHT_ELBOW = 0 := by
      show deg 0 = 0
      unfold deg
      ring
    rw [h0]

namespace Spike

/-- The gating fraction `k` computed inside `interpolatePose` when the
interpolated right shoulder has not yet crossed `SHOULDER_LIMIT`:
`(sh - startPose.RIGHT_SHOULDER) / (SHOULDER_LIMIT - startPose.RIGHT_SHOULDER)`. -/
def gateK (t : ℝ) : ℝ :=
  (lerp startPose.RIGHT_SHOULDER endPose.RIGHT_SHOULDER t - startPose.RIGHT_SHOULDER) /
    (SHOULDER_LIMIT - startPose.RIGHT_SHOULDER)

end Spike

/-- C6: conditional sub-interpolation gating.  While the interpolated
`RIGHT_SHOULDER` is still above `SHOULDER_LIMIT`, `interpolatePose` drives
`RIGHT_ELBOW = lerp(startPose.RIGHT_ELBOW, 0, k)` and
`RIGHT_ARM_SX = lerp(SX_START, SX_END, k)` with the unclamped gating fraction
`k`; once the shoulder is at or below the limit, both are held at their end
values (`0` and `SX_END`). -/
theorem gating_spec (t : ℝ) :
    (lerp Spike.startPose.RIGHT_SHOULDER Spike.endPose.RIGHT_SHOULDER t >
        Spike.SHOULDER_LIMIT →
      (Spike.interpolatePose t).RIGHT_ELBOW =
          lerp Spike.startPose.RIGHT_ELBOW 0 (Spike.gateK t) ∧
      (Spike.interpolatePose t).RIGHT_ARM_SX =
          lerp Spike.SX_START Spike.SX_END (Spike.gateK t)) ∧
    (lerp Spike.startPose.RIGHT_SHOULDER Spike.endPose.RIGHT_SHOULDER t ≤
        Spike.SHOULDER_LIMIT →
      (Spike.interpolatePose t).RIGHT_ELBOW = 0 ∧
      (Spike.interpolatePose t).RIGHT_ARM_SX = Spike.SX_END) := by
  constructor
  · intro h
    unfold Spike.interpolatePose
    dsimp only
    rw [if_pos (show (Spike.lerpPose Spike.startPose Spike.endPose t).RIGHT_SHOULDER >
      Spike.SHOULDER_LIMIT from h)]
    exact ⟨rfl, rfl⟩
  · intro h
    unfold Spike.interpolatePose
    dsimp only
    rw [if_neg (show ¬ (Spike.lerpPose Spike.startPose Spike.endPose t).RIGHT_SHOULDER >
      Spike.SHOULDER_LIMIT from not_lt.mpr h)]
    exact ⟨rfl, rfl⟩

/-- Witness for C6: at `t = 0` the shoulder is above the limit and the gated
formulas apply; at `t = 1` it has crossed and the end values are held. -/
theorem gating_spec_witness :
    ((Spike.interpolatePose 0).RIGHT_ELBOW =
        lerp Spike.startPose.RIGHT_ELBOW 0 (Spike.gateK 0) ∧
      (Spike.interpolatePose 0).RIGHT_ARM_SX =
        lerp Spike.SX_START Spike.SX_END (Spike.gateK 0)) ∧
    ((Spike.interpolatePose 1).RIGHT_ELBOW = 0 ∧
      (Spike.interpolatePose 1).RIGHT_ARM_SX = Spike.SX_END) := by
  constructor
  · refine (gating_spec 0).1 ?_
    rw [lerp_zero]
    exact deg_lt_deg (by norm_num)
  · refine (gating_spec 1).2 ?_
    rw [lerp_one]
    exact le_of_lt (deg_lt_deg (by norm_num))

namespace Spike

/-- `DURATION = 1000` milliseconds, the loop duration of the spike render. -/
def DURATION : ℝ := 1000

/-- The `LOOP` branch of the spike `render(now)` callback: the normalized
ping-pong parameter computed from the elapsed time.  `t = elapsed/DURATION`,
`cycle = Math.floor(t)`, `t = t - cycle`, reflected (`t = 1 - t`) on odd
cycles. -/
def renderT (elapsed : ℝ) : ℝ :=
  let t := elapsed / DURATION
  let cycle : ℤ := ⌊t⌋
  let t2 := t - cycle
  if cycle % 2 = 1 then 1 - t2 else t2

end Spike

/-- C5: ping-pong symmetry of the looped time mapping.  For every elapsed time
`t` in `[0, DURATION]`, the normalized parameter for `t` equals the parameter
for `2 * DURATION - t`, and hence the interpolated pose is the same at both
times. -/
theorem pingpong_symmetry (t : ℝ) (h0 : 0 ≤ t) (h1 : t ≤ Spike.DURATION) :
    Spike.renderT t = Spike.renderT (2 * Spike.DURATION - t) ∧
    Spike.interpolatePose (Spike.renderT t) =
      Spike.interpolatePose (Spike.renderT (2 * Spike.DURATION - t)) := by
  have hD : Spike.DURATION = (1000 : ℝ) := rfl
  suffices h : Spike.renderT t = Spike.renderT (2 * Spike.DURATION - t) by
    exact ⟨h, by rw [h]⟩
  rw [hD] at h1 ⊢
  rcases eq_or_lt_of_le h1 with heq | hlt
  · rw [heq]
    norm_num
  · have hfl : ⌊t / Spike.DURATION⌋ = 0 := by
      rw [Int.floor_eq_zero_iff]
      constructor
      · rw [hD]; positivity
      · rw [hD]
        exact (div_lt_one (by norm_num)).mpr hlt
    rcases eq_or_lt_of_le h0 with heq0 | hpos
    · -- t = 0 : the reflected argument is exactly two full cycles
      rw [← heq0]
      have hfl2 : ⌊(2 * (1000 : ℝ) - 0) / Spike.DURATION⌋ = 2 := by
        rw [hD]
        norm_num
      unfold Spike.renderT
      dsimp only
      rw [hfl2, show ((0 : ℝ) / Spike.DURATION) = 0 by rw [hD]; norm_num]
      rw [show ⌊(0 : ℝ)⌋ = 0 from Int.floor_zero]
      norm_num [hD]
    · -- 0 < t < 1000 : the reflected argument lands on the odd cycle
      have hfl2 : ⌊(2 * (1000 : ℝ) - t) / Spike.DURATION⌋ = 1 := by
        rw [hD, Int.floor_eq_iff]
        constructor
        · rw [le_div_iff₀ (by norm_num : (0 : ℝ) < 1000)]
          push_cast
          linarith
        · rw [div_lt_iff₀ (by norm_num : (0 : ℝ) < 1000)]
          push_cast
          linarith
      unfold Spike.renderT
      dsimp only
      rw [hfl, hfl2]
      norm_num [hD]
      field_simp
      ring

/-- Witness for C5 at `t = 250` milliseconds. -/
theorem pingpong_symmetry_witness :
    (0 : ℝ) ≤ 250 ∧ (250 : ℝ) ≤ Spike.DURATION ∧
    Spike.renderT 250 = Spike.renderT (2 * Spike.DURATION - 250) ∧
    Spike.interpolatePose (Spike.renderT 250) =
      Spike.interpolatePose (Spike.renderT (2 * Spike.DURATION - 250)) := by
  refine ⟨by norm_num, ?_, ?_⟩
  · show (250 : ℝ) ≤ 1000
    norm_num
  · exact pingpong_symmetry 250 (by norm_num) (by show (250 : ℝ) ≤ 1000; norm_num)

namespace Running

/-- `backLegMaxAngle = PI/12`: small amplitude while the leg trails. -/
def backLegMaxAngle : ℝ := Real.pi / 12

/-- `frontLegMaxAngle = PI/2`: large amplitude while the leg is lifted. -/
def frontLegMaxAngle : ℝ := Real.pi / 2

/-- `leftLegPhase = Math.sin(t + PI)` in `part_001`'s render loop. -/
def leftLegPhase (t : ℝ) : ℝ := Real.sin (t + Real.pi)

/-- `rightLegPhase = Math.sin(t)` in `part_001`'s render loop. -/
def rightLegPhase (t : ℝ) : ℝ := Real.sin t

/-- Left hip angle: asymmetric amplitude depending on the sign of the phase. -/
def leftLegAngle (t : ℝ) : ℝ :=
  if leftLegPhase t < 0 then leftLegPhase t * backLegMaxAngle
  else leftLegPhase t * frontLegMaxAngle

/-- Right hip angle: asymmetric amplitude depending on the sign of the phase. -/
def rightLegAngle (t : ℝ) : ℝ :=
  if rightLegPhase t < 0 then rightLegPhase t * backLegMaxAngle
  else rightLegPhase t * frontLegMaxAngle

/-- Left knee angle: `-(hip + PI/4)` while the leg is lifted, else `0`. -/
def leftKneeAngle (t : ℝ) : ℝ :=
  if leftLegPhase t > 0 then -(leftLegAngle t + Real.pi / 4) else 0

/-- Right knee angle: `-(hip + PI/4)` while the leg is lifted, else `0`. -/
def rightKneeAngle (t : ℝ) : ℝ :=
  if rightLegPhase t > 0 then -(rightLegAngle t + Real.pi / 4) else 0

/-- The knee rule as a pure function of the same-frame phase and hip angle. -/
def kneeFromHip (phase hip : ℝ) : ℝ :=
  if phase > 0 then -(hip + Real.pi / 4) else 0

end Running

/-- C7: knee dependency in the cyclic gait.  For each leg and every frame
time, the knee angle is the pure function `kneeFromHip` of that leg's
same-frame phase and hip angle: `-(hip + PI/4)` when the sine phase is
positive (lifted leg, lower leg parallel to the ground), `0` when the phase
is non-positive (trailing leg kept straight). -/
theorem knee_dependency (t : ℝ) :
    Running.leftKneeAngle t =
      Running.kneeFromHip (Running.leftLegPhase t) (Running.leftLegAngle t) ∧
    Running.rightKneeAngle t =
      Running.kneeFromHip (Running.rightLegPhase t) (Running.rightLegAngle t) ∧
    (Running.leftLegPhase t > 0 →
      Running.leftKneeAngle t = -(Running.leftLegAngle t + Real.pi / 4)) ∧
    (Running.leftLegPhase t ≤ 0 → Running.leftKneeAngle t = 0) ∧
    (Running.rightLegPhase t > 0 →
      Running.rightKneeAngle t = -(Running.rightLegAngle t + Real.pi / 4)) ∧
    (Running.rightLegPhase t ≤ 0 → Running.rightKneeAngle t = 0) := by
  refine ⟨rfl, rfl, ?_, ?_, ?_, ?_⟩
  · intro h
    unfold Running.leftKneeAngle
    rw [if_pos h]
  · intro h
    unfold Running.leftKneeAngle
    rw [if_neg (not_lt.mpr h)]
  · intro h
    unfold Running.rightKneeAngle
    rw [if_pos h]
  · intro h
    unfold Running.rightKneeAngle
    rw [if_neg (not_lt.mpr h)]

/-- Witness for C7 at `t = PI/2`: the right leg is lifted
(`sin(PI/2) = 1 > 0`) and follows the hip; the left leg is trailing
(`sin(PI/2 + PI) = -1 <= 0`) and stays straight. -/
theorem knee_dependency_witness :
    Running.rightKneeAngle (Real.pi / 2) =
      -(Running.rightLegAngle (Real.pi / 2) + Real.pi / 4) ∧
    Running.leftKneeAngle (Real.pi / 2) = 0 := by
  have hr : Running.rightLegPhase (Real.pi / 2) > 0 := by
    unfold Running.rightLegPhase
    rw [Real.sin_pi_div_two]
    norm_num
  have hl : Running.leftLegPhase (Real.pi / 2) ≤ 0 := by
    unfold Running.leftLegPhase
    rw [Real.sin_add_pi, Real.sin_pi_div_two]
    norm_num
  exact ⟨(knee_dependency (Real.pi / 2)).2.2.2.2.1 hr,
         (knee_dependency (Real.pi / 2)).2.2.2.1 hl⟩

theorem length_flatMap_range_const {α : Type} (n m : ℕ) (f : ℕ → List α)
    (hf : ∀ a, (f a).length = m) :
    ((List.range n).flatMap f).length = n * m := by
  induction n with
  | zero => simp
  | succ k ih =>
      rw [List.range_succ, List.flatMap_append, List.length_append, ih]
      simp [hf]
      ring

theorem length_flatMap_range_cap {α : Type} (n : ℕ) (f : ℕ → List α)
    (h0 : (f 0).length = 0) (hf : ∀ a, 0 < a → (f a).length = 3) :
    ((List.range (n + 1)).flatMap f).length = n * 3 := by
  induction n with
  | zero => simpa [List.range_succ] using h0
  | succ k ih =>
      rw [List.range_succ, List.flatMap_append, List.length_append, ih]
      simp [hf (k + 1) (Nat.succ_pos k)]
      ring

/-- The vertex/normal loop of fencing.js `createSphere`: one (position,
normal) pair per `(lat, lon)` with `lat <= latBands`, `lon <= longBands`. -/
def sphereVerts (radius : ℝ) (latBands longBands : ℕ) : List (Vec3 × Vec3) :=
  (List.range (latBands + 1)).flatMap fun (lat : ℕ) =>
    (List.range (longBands + 1)).map fun (lon : ℕ) =>
      let theta := (lat : ℝ) * Real.pi / (latBands : ℝ)
      let sinTheta := Real.sin theta
      let cosTheta := Real.cos theta
      let phi := (lon : ℝ) * 2 * Real.pi / (longBands : ℝ)
      let sinPhi := Real.sin phi
      let cosPhi := Real.cos phi
      let x := cosPhi * sinTheta
      let y := cosTheta
      let z := sinPhi * sinTheta
      ((radius * x, radius * y, radius * z), (x, y, z))

/-- The index loop of fencing.js `createSphere`: two triangles per quad. -/
def sphereIndices (latBands longBands : ℕ) : List ℕ :=
  (List.range latBands).flatMap fun (lat : ℕ) =>
    (List.range longBands).flatMap fun (lon : ℕ) =>
      let first := lat * (longBands + 1) + lon
      let second := first + longBands + 1
      [first, second, first + 1, second, second + 1, first + 1]

/-- fencing.js `createSphere(radius, latBands, longBands)`: flat vertex,
normal and index data for a UV sphere. -/
def createSphere (radius : ℝ) (latBands longBands : ℕ) :
    List (Vec3 × Vec3) × List ℕ :=
  (sphereVerts radius latBands longBands, sphereIndices latBands longBands)

/-- The lateral-surface vertex/normal loop of fencing.js `createCylinder`. -/
def cylinderSideVerts (radiusTop radiusBottom height : ℝ)
    (radialSegments heightSegments : ℕ) : List (Vec3 × Vec3) :=
  (List.range (heightSegments + 1)).flatMap fun (y : ℕ) =>
    (List.range (radialSegments + 1)).map fun (x : ℕ) =>
      let v := (y : ℝ) / (heightSegments : ℝ)
      let radius := v * (radiusBottom - radiusTop) + radiusTop
      let yPos := height / 2 - v * height
      let u := (x : ℝ) / (radialSegments : ℝ)
      let theta := u * (2 * Real.pi)
      let sinTheta := Real.sin theta
      let cosTheta := Real.cos theta
      let normalX := sinTheta
      let normalY := (radiusBottom - radiusTop) / height
      let normalZ := cosTheta
      let len := Real.sqrt (normalX * normalX + normalY * normalY + normalZ * normalZ)
      ((radius * sinTheta, yPos, radius * cosTheta),
       (normalX / len, normalY / len, normalZ / len))

/-- The lateral-surface index loop of fencing.js `createCylinder`. -/
def cylinderSideIndices (radialSegments heightSegments : ℕ) : List ℕ :=
  (List.range heightSegments).flatMap fun (y : ℕ) =>
    (List.range radialSegments).flatMap fun (x : ℕ) =>
      let vertex1 := y * (radialSegments + 1) + x
      let vertex2 := vertex1 + radialSegments + 1
      [vertex1, vertex2, vertex1 + 1, vertex2, vertex2 + 1, vertex1 + 1]

/-- One end cap's vertices: the centre point followed by `radialSegments + 1`
rim points, all with the straight up/down normal `(0, ny, 0)`. -/
def cylinderCapVerts (r yPos ny : ℝ) (radialSegments : ℕ) : List (Vec3 × Vec3) :=
  ((0, yPos, 0), (0, ny, 0)) ::
    ((List.range (radialSegments + 1)).map fun (i : ℕ) =>
      let theta := (i : ℝ) * (2 * Real.pi) / (radialSegments : ℝ)
      ((r * Real.sin theta, yPos, r * Real.cos theta), (0, ny, 0)))

/-- The top cap's triangle fan indices (`if (i > 0)` inside the rim loop). -/
def cylinderTopCapIndices (base : ℕ) (radialSegments : ℕ) : List ℕ :=
  (List.range (radialSegments + 1)).flatMap fun (i : ℕ) =>
    if 0 < i then [base, base + i, base + i + 1] else []

/-- The bottom cap's triangle fan indices (opposite winding). -/
def cylinderBottomCapIndices (base : ℕ) (radialSegments : ℕ) : List ℕ :=
  (List.range (radialSegments + 1)).flatMap fun (i : ℕ) =>
    if 0 < i then [base, base + i + 1, base + i] else []

/-- fencing.js `createCylinder(radiusTop, radiusBottom, height,
radialSegments, heightSegments, openEnded)`: the lateral surface, plus both
end caps when `openEnded` is false.  Cap base indices are the vertex counts
at the moment each cap is emitted, as in the source
(`vertices.length / 3`). -/
def createCylinder (radiusTop radiusBottom height : ℝ)
    (radialSegments heightSegments : ℕ) (openEnded : Bool) :
    List (Vec3 × Vec3) × List ℕ :=
  let sideVerts := cylinderSideVerts radiusTop radiusBottom height radialSegments heightSegments
  let sideIdx := cylinderSideIndices radialSegments heightSegments
  if openEnded then (sideVerts, sideIdx)
  else
    let topCapBaseIndex := sideVerts.length
    let topVerts := cylinderCapVerts radiusTop (height / 2) 1 radialSegments
    let topIdx := cylinderTopCapIndices topCapBaseIndex radialSegments
    let bottomCapBaseIndex := sideVerts.length + topVerts.length
    let botVerts := cylinderCapVerts radiusBottom (-(height / 2)) (-1) radialSegments
    let botIdx := cylinderBottomCapIndices bottomCapBaseIndex radialSegments
    (sideVerts ++ topVerts ++ botVerts, sideIdx ++ topIdx ++ botIdx)

theorem sphereVerts_length (radius : ℝ) (latBands longBands : ℕ) :
    (sphereVerts radius latBands longBands).length = (latBands + 1) * (longBands + 1) := by
  unfold sphereVerts
  apply length_flatMap_range_const
  intro a
  rw [List.length_map, List.length_range]

theorem sphereIndices_length (latBands longBands : ℕ) :
    (sphereIndices latBands longBands).length = latBands * (longBands * 6) := by
  unfold sphereIndices
  apply length_flatMap_range_const
  intro a
  apply length_flatMap_range_const
  intro b
  rfl

theorem cylinderSideVerts_length (radiusTop radiusBottom height : ℝ)
    (radialSegments heightSegments : ℕ) :
    (cylinderSideVerts radiusTop radiusBottom height radialSegments heightSegments).length =
      (heightSegments + 1) * (radialSegments + 1) := by
  unfold cylinderSideVerts
  apply length_flatMap_range_const
  intro a
  rw [List.length_map, List.length_range]

theorem cylinderCapVerts_length (r yPos ny : ℝ) (radialSegments : ℕ) :
    (cylinderCapVerts r yPos ny radialSegments).length = radialSegments + 2 := by
  unfold cylinderCapVerts
  rw [List.length_cons, List.length_map, List.length_range]

theorem cylinderTopCapIndices_length (base radialSegments : ℕ) :
    (cylinderTopCapIndices base radialSegments).length = radialSegments * 3 := by
  unfold cylinderTopCapIndices
  apply length_flatMap_range_cap
  · rfl
  · intro a ha
    rw [if_pos ha]
    rfl

theorem cylinderBottomCapIndices_length (base radialSegments : ℕ) :
    (cylinderBottomCapIndices base radialSegments).length = radialSegments * 3 := by
  unfold cylinderBottomCapIndices
  apply length_flatMap_range_cap
  · rfl
  · intro a ha
    rw [if_pos ha]
    rfl

theorem createCylinder_closed (radiusTop radiusBottom height : ℝ)
    (radialSegments heightSegments : ℕ) :
    createCylinder radiusTop radiusBottom height radialSegments heightSegments false =
      (cylinderSideVerts radiusTop radiusBottom height radialSegments heightSegments ++
        cylinderCapVerts radiusTop (height / 2) 1 radialSegments ++
        cylinderCapVerts radiusBottom (-(height / 2)) (-1) radialSegments,
       cylinderSideIndices radialSegments heightSegments ++
        cylinderTopCapIndices
          (cylinderSideVerts radiusTop radiusBottom height radialSegments heightSegments).length
          radialSegments ++
        cylinderBottomCapIndices
          ((cylinderSideVerts radiusTop radiusBottom height radialSegments heightSegments).length +
            (cylinderCapVerts radiusTop (height / 2) 1 radialSegments).length)
          radialSegments) := rfl

theorem createCylinder_open (radiusTop radiusBottom height : ℝ)
    (radialSegments heightSegments : ℕ) :
    createCylinder radiusTop radiusBottom height radialSegments heightSegments true =
      (cylinderSideVerts radiusTop radiusBottom height radialSegments heightSegments,
       cylinderSideIndices radialSegments heightSegments) := rfl

/-- C8: geometry closure counts.  For positive parameters, `createSphere`
returns `(latBands+1) * (longBands+1)` vertices and
`latBands * longBands * 6` index entries, and `createCylinder` with
`openEnded = false` returns exactly `2 * (radialSegments + 2)` more vertices
and `2 * radialSegments * 3` more index entries than the open-ended call. -/
theorem geometry_counts (radius radiusTop radiusBottom height : ℝ)
    (latBands longBands radialSegments heightSegments : ℕ)
    (hradius : 0 < radius) (hlat : 0 < latBands) (hlon : 0 < longBands)
    (hrt : 0 < radiusTop) (hrb : 0 < radiusBottom) (hh : 0 < height)
    (hrs : 0 < radialSegments) (hhs : 0 < heightSegments) :
    (createSphere radius latBands longBands).1.length = (latBands + 1) * (longBands + 1) ∧
    (createSphere radius latBands longBands).2.length = latBands * longBands * 6 ∧
    (createCylinder radiusTop radiusBottom height radialSegments heightSegments false).1.length =
      (createCylinder radiusTop radiusBottom height radialSegments heightSegments true).1.length +
        2 * (radialSegments + 2) ∧
    (createCylinder radiusTop radiusBottom height radialSegments heightSegments false).2.length =
      (createCylinder radiusTop radiusBottom height radialSegments heightSegments true).2.length +
        2 * radialSegments * 3 := by
  refine ⟨sphereVerts_length radius latBands longBands, ?_, ?_, ?_⟩
  · rw [show (createSphere radius latBands longBands).2 = sphereIndices latBands longBands from rfl]
    rw [sphereIndices_length]
    ring
  · rw [createCylinder_closed, createCylinder_open]
    dsimp only
    rw [List.length_append, List.length_append,
      cylinderCapVerts_length, cylinderCapVerts_length]
    ring
  · rw [createCylinder_closed, createCylinder_open]
    dsimp only
    rw [List.length_append, List.length_append,
      cylinderTopCapIndices_length, cylinderBottomCapIndices_length]
    ring

/-- Witness for C8 at the repository's own parameters:
`createSphere(0.5, 16, 32)` and `createCylinder(0.5, 0.5, 1.0, 16, 1)`. -/
theorem geometry_counts_witness :
    (createSphere 0.5 16 32).1.length = (16 + 1) * (32 + 1) ∧
    (createSphere 0.5 16 32).2.length = 16 * 32 * 6 ∧
    (createCylinder 0.5 0.5 1.0 16 1 false).1.length =
      (createCylinder 0.5 0.5 1.0 16 1 true).1.length + 2 * (16 + 2) ∧
    (createCylinder 0.5 0.5 1.0 16 1 false).2.length =
      (createCylinder 0.5 0.5 1.0 16 1 true).2.length + 2 * 16 * 3 :=
  geometry_counts 0.5 0.5 0.5 1.0 16 32 16 1
    (by norm_num) (by norm_num) (by norm_num) (by norm_num)
    (by norm_num) (by norm_num) (by norm_num) (by norm_num)

theorem sqrt_four : Real.sqrt 4 = 2 := by
  rw [show (4 : ℝ) = 2 ^ 2 by norm_num, Real.sqrt_sq (by norm_num : (0 : ℝ) ≤ 2)]

theorem vec3length_two_x : vec3length ((2 : ℝ), 0, 0) = 2 := by
  unfold vec3length
  norm_num
  exact sqrt_four

theorem vec3length_neg_z : vec3length ((0 : ℝ), 0, -1) = 1 := by
  unfold vec3length
  norm_num

/-- Evaluation of `barbellCalc` on hand transforms whose translation columns
are `(-1, 1, 0)` and `(1, 1, 0)`. -/
theorem barbellCalc_hands (L R : Mat4)
    (hL0 : L 0 3 = -1) (hL1 : L 1 3 = 1) (hL2 : L 2 3 = 0)
    (hR0 : R 0 3 = 1) (hR1 : R 1 3 = 1) (hR2 : R 2 3 = 0) :
    Barbell.barbellCalc L R =
      { pL := (-1, 1, 0), pR := (1, 1, 0), len := 2, dir := (1, 0, 0),
        mid := (0, 1, 0), axis := (0, 0, -1), axisLen := 1 } := by
  unfold Barbell.barbellCalc
  rw [hL0, hL1, hL2, hR0, hR1, hR2]
  dsimp only
  have h1 : vec3sub ((1 : ℝ), 1, 0) (-1, 1, 0) = (2, 0, 0) := by
    unfold vec3sub
    norm_num
  rw [h1, vec3length_two_x]
  have h3 : vec3smul (1 / 2) ((2 : ℝ), 0, 0) = (1, 0, 0) := by
    unfold vec3smul
    norm_num
  rw [h3]
  have h4 : vec3add ((-1 : ℝ), 1, 0) (1, 1, 0) = (0, 2, 0) := by
    unfold vec3add
    norm_num
  rw [h4]
  have h5 : vec3smul 0.5 ((0 : ℝ), 2, 0) = (0, 1, 0) := by
    unfold vec3smul
    norm_num
  rw [h5]
  have h6 : vec3cross Barbell.barbellUp ((1 : ℝ), 0, 0) = (0, 0, -1) := by
    unfold vec3cross Barbell.barbellUp
    norm_num
  rw [h6, vec3length_neg_z]

theorem barbellAngle_hands :
    Barbell.barbellAngle
      { pL := (-1, 1, 0), pR := (1, 1, 0), len := 2, dir := (1, 0, 0),
        mid := (0, 1, 0), axis := (0, 0, -1), axisLen := 1 } = Real.pi / 2 := by
  unfold Barbell.barbellAngle Barbell.barbellUp
  norm_num [vec3dot, Real.arccos_zero]

theorem rot_maps_y_to_x :
    (rotationMat (Real.pi / 2) ((0 : ℝ), 0, -1)).mulVec ![0, 1, 0, 0] = ![1, 0, 0, 0] := by
  funext i
  fin_cases i <;>
    simp [rotationMat, vec3length_neg_z, Matrix.mulVec, Matrix.dotProduct, Fin.sum_univ_four,
      Real.sin_pi_div_two, Real.cos_pi_div_two]

/-- C9: derived-prop placer, concrete scenario.  For hand transforms with
translation columns `(-1, 1, 0)` and `(1, 1, 0)`, `drawBarbell` computes
`mid = (0, 1, 0)`, `length = 2`, `dir = (1, 0, 0)`, takes the
`axisLen > 1e-5` branch with rotation angle `PI/2` (90 degrees) about the
normalised Z axis `(0, 0, -1)`, a rotation whose matrix maps the prop's
canonical `+Y` axis onto `+X`; the bar is then scaled to the computed
length. -/
theorem barbell_concrete_scenario (L R : Mat4)
    (hL0 : L 0 3 = -1) (hL1 : L 1 3 = 1) (hL2 : L 2 3 = 0)
    (hR0 : R 0 3 = 1) (hR1 : R 1 3 = 1) (hR2 : R 2 3 = 0) :
    (Barbell.barbellCalc L R).mid = (0, 1, 0) ∧
    (Barbell.barbellCalc L R).len = 2 ∧
    (Barbell.barbellCalc L R).dir = (1, 0, 0) ∧
    (Barbell.barbellCalc L R).axisLen > 1e-5 ∧
    vec3smul (1 / (Barbell.barbellCalc L R).axisLen) (Barbell.barbellCalc L R).axis =
      (0, 0, -1) ∧
    Barbell.barbellAngle (Barbell.barbellCalc L R) = Real.pi / 2 ∧
    (rotationMat (Barbell.barbellAngle (Barbell.barbellCalc L R))
        (vec3smul (1 / (Barbell.barbellCalc L R).axisLen)
          (Barbell.barbellCalc L R).axis)).mulVec ![0, 1, 0, 0] = ![1, 0, 0, 0] := by
  have hc := barbellCalc_hands L R hL0 hL1 hL2 hR0 hR1 hR2
  rw [hc]
  have haxisN : vec3smul
      ((1 : ℝ) / (1 : ℝ)) ((0 : ℝ), (0 : ℝ), (-1 : ℝ)) = ((0 : ℝ), 0, -1) := by
    unfold vec3smul
    norm_num
  refine ⟨rfl, rfl, rfl, by norm_num, haxisN, barbellAngle_hands, ?_⟩
  rw [haxisN, barbellAngle_hands]
  exact rot_maps_y_to_x

/-- A concrete left-hand world transform with translation column `(-1, 1, 0)`. -/
def handL : Mat4 :=
  Matrix.of ![![1, 0, 0, -1], ![0, 1, 0, 1], ![0, 0, 1, 0], ![0, 0, 0, 1]]

/-- A concrete right-hand world transform with translation column `(1, 1, 0)`. -/
def handR : Mat4 :=
  Matrix.of ![![1, 0, 0, 1], ![0, 1, 0, 1], ![0, 0, 1, 0], ![0, 0, 0, 1]]

/-- Witness for C9 at the concrete hand transforms `handL`, `handR`. -/
theorem barbell_concrete_scenario_witness :
    (Barbell.barbellCalc handL handR).mid = (0, 1, 0) ∧
    (Barbell.barbellCalc handL handR).len = 2 ∧
    (Barbell.barbellCalc handL handR).dir = (1, 0, 0) ∧
    (Barbell.barbellCalc handL handR).axisLen > 1e-5 ∧
    vec3smul (1 / (Barbell.barbellCalc handL handR).axisLen)
      (Barbell.barbellCalc handL handR).axis = (0, 0, -1) ∧
    Barbell.barbellAngle (Barbell.barbellCalc handL handR) = Real.pi / 2 ∧
    (rotationMat (Barbell.barbellAngle (Barbell.barbellCalc handL handR))
        (vec3smul (1 / (Barbell.barbellCalc handL handR).axisLen)
          (Barbell.barbellCalc handL handR).axis)).mulVec ![0, 1, 0, 0] =
      ![1, 0, 0, 0] :=
  barbell_concrete_scenario handL handR rfl rfl rfl rfl rfl rfl

theorem vec3length_smul (c : ℝ) (v : Vec3) :
    vec3length (vec3smul c v) = |c| * vec3length v := by
  unfold vec3length vec3smul
  rw [show (c * v.1) ^ 2 + (c * v.2.1) ^ 2 + (c * v.2.2) ^ 2 =
    c ^ 2 * (v.1 ^ 2 + v.2.1 ^ 2 + v.2.2 ^ 2) by ring]
  rw [Real.sqrt_mul (sq_nonneg c), Real.sqrt_sq_eq_abs]

theorem vec3length_pos_of_ne {a b : Vec3} (h : a ≠ b) :
    0 < vec3length (vec3sub a b) := by
  unfold vec3length vec3sub
  apply Real.sqrt_pos.mpr
  by_contra hle
  push_neg at hle
  dsimp only at hle
  have h1 : a.1 - b.1 = 0 := by
    nlinarith [sq_nonneg (a.1 - b.1), sq_nonneg (a.2.1 - b.2.1), sq_nonneg (a.2.2 - b.2.2)]
  have h2 : a.2.1 - b.2.1 = 0 := by
    nlinarith [sq_nonneg (a.1 - b.1), sq_nonneg (a.2.1 - b.2.1), sq_nonneg (a.2.2 - b.2.2)]
  have h3 : a.2.2 - b.2.2 = 0 := by
    nlinarith [sq_nonneg (a.1 - b.1), sq_nonneg (a.2.1 - b.2.1), sq_nonneg (a.2.2 - b.2.2)]
  exact h (Prod.ext_iff.mpr ⟨by linarith, Prod.ext_iff.mpr ⟨by linarith, by linarith⟩⟩)

/-- C10: degenerate-direction safety of the derived-prop placer.  For every
pair of distinct hand positions: the bar length is strictly positive (so the
direction normalisation divides by a nonzero number), the arccosine argument
is clamped into `[-1, 1]`, the rotation axis is normalised only under the
`axisLen > 1e-5` guard — where `axisLen` is nonzero and the normalised axis
has unit length — and in the antiparallel case (cross product below the
threshold with `dot(up, dir) < 0`) a fixed 180-degree rotation about `+X` is
substituted. -/
theorem barbell_degenerate_safety (L R : Mat4)
    (hne : (Barbell.barbellCalc L R).pL ≠ (Barbell.barbellCalc L R).pR) :
    0 < (Barbell.barbellCalc L R).len ∧
    (-1 ≤ min (max (vec3dot Barbell.barbellUp (Barbell.barbellCalc L R).dir) (-1)) 1 ∧
      min (max (vec3dot Barbell.barbellUp (Barbell.barbellCalc L R).dir) (-1)) 1 ≤ 1) ∧
    ((Barbell.barbellCalc L R).axisLen > 1e-5 →
      (Barbell.barbellCalc L R).axisLen ≠ 0 ∧
      vec3length (vec3smul (1 / (Barbell.barbellCalc L R).axisLen)
        (Barbell.barbellCalc L R).axis) = 1) ∧
    (¬ (Barbell.barbellCalc L R).axisLen > 1e-5 →
      vec3dot Barbell.barbellUp (Barbell.barbellCalc L R).dir < 0 →
      ∀ (axisN : Vec3) (s : MatrixStack),
        Barbell.orientStep (Barbell.barbellCalc L R) axisN s =
          s.rotate Real.pi (1, 0, 0)) := by
  refine ⟨?_, ⟨?_, ?_⟩, ?_, ?_⟩
  · show 0 < vec3length (vec3sub (Barbell.barbellCalc L R).pR (Barbell.barbellCalc L R).pL)
    exact vec3length_pos_of_ne (Ne.symm hne)
  · exact le_min (le_max_right _ _) (by norm_num)
  · exact min_le_right _ _
  · intro h
    have hpos : 0 < (Barbell.barbellCalc L R).axisLen := lt_trans (by norm_num) h
    refine ⟨ne_of_gt hpos, ?_⟩
    rw [vec3length_smul]
    rw [show vec3length (Barbell.barbellCalc L R).axis =
      (Barbell.barbellCalc L R).axisLen from rfl]
    rw [abs_of_pos (one_div_pos.mpr hpos)]
    exact one_div_mul_cancel (ne_of_gt hpos)
  · intro h hdot axisN s
    unfold Barbell.orientStep
    rw [if_neg h, if_pos hdot]

/-- Witness for C10 at the concrete hand transforms `handL`, `handR`
(distinct hand positions `(-1, 1, 0)` and `(1, 1, 0)`). -/
theorem barbell_degenerate_safety_witness :
    0 < (Barbell.barbellCalc handL handR).len ∧
    (-1 ≤ min (max (vec3dot Barbell.barbellUp (Barbell.barbellCalc handL handR).dir) (-1)) 1 ∧
      min (max (vec3dot Barbell.barbellUp (Barbell.barbellCalc handL handR).dir) (-1)) 1 ≤ 1) ∧
    ((Barbell.barbellCalc handL handR).axisLen > 1e-5 →
      (Barbell.barbellCalc handL handR).axisLen ≠ 0 ∧
      vec3length (vec3smul (1 / (Barbell.barbellCalc handL handR).axisLen)
        (Barbell.barbellCalc handL handR).axis) = 1) ∧
    (¬ (Barbell.barbellCalc handL handR).axisLen > 1e-5 →
      vec3dot Barbell.barbellUp (Barbell.barbellCalc handL handR).dir < 0 →
      ∀ (axisN : Vec3) (s : MatrixStack),
        Barbell.orientStep (Barbell.barbellCalc handL handR) axisN s =
          s.rotate Real.pi (1, 0, 0)) :=
  barbell_degenerate_safety handL handR
    (by
      show ((-1 : ℝ), (1 : ℝ), (0 : ℝ)) ≠ ((1 : ℝ), (1 : ℝ), (0 : ℝ))
      norm_num [Prod.ext_iff])
